import Mathlib

set_option autoImplicit false

/-!
Shallow embedding of the smart-video-controls position manager
(`src/modules/videoPositionManager.js`) and the iframe control relay
(`src/unnamed/part_002`), together with proofs about the embedded code.

Conventions of the embedding:
* JavaScript numbers handled by this code are either `NaN` or exact
  rationals; we model them by `JSNum`.
* `chrome.storage.local` is an ordered association list from string keys to
  stored objects; object literals are ordered field lists, so that the
  field *names* written by the code are part of the model.
* Asynchronous callback code (the parent-URL resolver) is modelled as a
  state machine folded over a list of events (incoming `message` events and
  the two timer firings); JavaScript promise resolution is single-assignment.
-/

namespace SmartVideo

/-- A JavaScript number as manipulated by the position manager: `NaN` or an
exact rational value. -/
inductive JSNum where
  | nan : JSNum
  | num : ℚ → JSNum
  deriving DecidableEq, Repr

/-- JavaScript `a > b` (false whenever either side is `NaN`). -/
def JSNum.gtb : JSNum → JSNum → Bool
  | .num a, .num b => decide (b < a)
  | _, _ => false

/-- JavaScript subtraction (`NaN` propagates). -/
def JSNum.subn : JSNum → JSNum → JSNum
  | .num a, .num b => .num (a - b)
  | _, _ => .nan

/-- JavaScript `isNaN` on our number model. -/
def JSNum.isNaNb : JSNum → Bool
  | .nan => true
  | .num _ => false

/-- JavaScript truthiness of a number: `0` and `NaN` are falsy. -/
def JSNum.truthy : JSNum → Bool
  | .nan => false
  | .num a => decide (a ≠ 0)

/-- A JavaScript value stored in a record field. -/
inductive JSValue where
  | str : String → JSValue
  | num : JSNum → JSValue
  deriving DecidableEq, Repr

/-- A JavaScript object literal, as an ordered list of named fields. -/
abbrev JSObj := List (String × JSValue)

/-- Field lookup on an object (first matching field). -/
def JSObj.get (o : JSObj) (k : String) : Option JSValue :=
  (o.find? (fun p => p.1 == k)).map (·.2)

/-- Numeric read of a field: a missing or non-numeric field behaves as `NaN`
in the numeric comparisons the code performs on it. -/
def JSObj.getNum (o : JSObj) (k : String) : JSNum :=
  match o.get k with
  | some (.num n) => n
  | _ => .nan

/-- The `chrome.storage.local` area: keys to stored objects. -/
abbrev Storage := List (String × JSObj)

/-- `chrome.storage.local.get([k])` for a single key. -/
def storageGet : Storage → String → Option JSObj
  | [], _ => none
  | (k', v') :: rest, k => if k' == k then some v' else storageGet rest k

/-- `chrome.storage.local.set({[k]: v})`: overwrite or append. -/
def storageSet (st : Storage) (k : String) (v : JSObj) : Storage :=
  match st with
  | [] => [(k, v)]
  | (k', v') :: rest => if k' == k then (k, v) :: rest else (k', v') :: storageSet rest k v

/-- `chrome.storage.local.remove([k])`. -/
def storageRemove : Storage → String → Storage
  | [], _ => []
  | (k', v') :: rest, k =>
    if k' == k then storageRemove rest k else (k', v') :: storageRemove rest k

/-- The parts of a URL that `videoPositionManager.js` reads off `new URL(s)`. -/
structure Url where
  scheme : String
  host : String
  pathname : String
  search : String
  hash : String
  deriving DecidableEq, Repr

/-- `url.origin`. -/
def Url.origin (u : Url) : String := u.scheme ++ "://" ++ u.host

/-- `url.href`. -/
def Url.href (u : Url) : String := u.origin ++ u.pathname ++ u.search ++ u.hash

/-- The `new URL(s)` constructor restricted to the absolute
`scheme://host[/path][?query][#hash]` shapes this extension handles;
`none` models the constructor throwing. -/
def parseUrl (s : String) : Option Url :=
  let cs := s.data
  let scheme := cs.takeWhile (fun c => c != ':')
  let rest := cs.dropWhile (fun c => c != ':')
  match rest with
  | ':' :: '/' :: '/' :: rest2 =>
    if scheme.isEmpty then none
    else
      let host := rest2.takeWhile (fun c => c != '/' && c != '?' && c != '#')
      let rest3 := rest2.dropWhile (fun c => c != '/' && c != '?' && c != '#')
      if host.isEmpty then none
      else
        let path := rest3.takeWhile (fun c => c != '?' && c != '#')
        let rest4 := rest3.dropWhile (fun c => c != '?' && c != '#')
        let search := rest4.takeWhile (fun c => c != '#')
        let frag := rest4.dropWhile (fun c => c != '#')
        some { scheme := ⟨scheme⟩, host := ⟨host⟩,
               pathname := if path.isEmpty then "/" else ⟨path⟩,
               search := ⟨search⟩, hash := ⟨frag⟩ }
  | _ => none

/-- Split a character list at every occurrence of `c`
(the semantics of JavaScript `String.prototype.split` with a one-character
separator). -/
def splitList (c : Char) : List Char → List (List Char)
  | [] => [[]]
  | x :: xs =>
    match splitList c xs with
    | [] => [[]]
    | y :: ys => if x = c then [] :: y :: ys else (x :: y) :: ys

/-- Parse a `search` string (leading `?` included) into its key/value pairs,
in order, as `URLSearchParams` does for the simple queries used here. -/
def parseQuery (search : String) : List (String × String) :=
  let q := match search.data with
    | '?' :: rest => rest
    | l => l
  if q.isEmpty then []
  else (splitList '&' q).map (fun kv =>
    let k := kv.takeWhile (fun c => c != '=')
    let v := kv.dropWhile (fun c => c != '=')
    match v with
    | '=' :: vs => ((⟨k⟩ : String), (⟨vs⟩ : String))
    | _ => ((⟨k⟩ : String), ""))

/-- `params.get(k)` (first occurrence). -/
def queryGet (q : List (String × String)) (k : String) : Option String :=
  (q.find? (fun p => p.1 == k)).map (·.2)

/-- The allow-list of video-identifying query parameters in
`generateVideoKey`. -/
def importantParamNames : List String := ["v", "id", "video", "vid", "movie", "episode"]

/-- The stable URL representation computed inside `generateVideoKey`
(lines 162-194): full `origin + pathname` plus allow-listed query parameters
when the path is non-trivial, bare origin otherwise; the hash fragment is
never included. -/
def stableUrlOf (u : Url) : String :=
  if u.pathname != "" && u.pathname != "/" then
    let base := u.origin ++ u.pathname
    let q := parseQuery u.search
    let importantParams := importantParamNames.filterMap
      (fun p => (queryGet q p).map (fun v => p ++ "=" ++ v))
    if importantParams.isEmpty then base
    else base ++ "?" ++ String.intercalate "&" importantParams
  else
    u.origin

/-- `generateVideoKey` (lines 153-208), given the already-resolved parent
URL and the already-computed video selector: the stable URL and the selector
joined by `#`, falling back to the raw URL when parsing fails. -/
def generateVideoKey (parentUrl : String) (videoSelector : String) : String :=
  match parseUrl parentUrl with
  | some u => stableUrlOf u ++ "#" ++ videoSelector
  | none => parentUrl ++ "#" ++ videoSelector

/-- Truncate signed 32-bit, as JavaScript bitwise operators do. -/
def toInt32 (n : ℤ) : ℤ := (n + 2 ^ 31) % 2 ^ 32 - 2 ^ 31

/-- One iteration of the loop in `hashString` (lines 253-257):
`hash = ((hash << 5) - hash) + charCode; hash = hash & hash`. -/
def hashStep (h : ℤ) (c : ℕ) : ℤ := toInt32 (toInt32 (h * 32) - h + c)

/-- Digit character for base-36 printing (`0-9a-z`). -/
def digitChar36 (n : ℕ) : Char :=
  if n < 10 then Char.ofNat (48 + n) else Char.ofNat (87 + n)

/-- Little-endian base-36 digits of a natural number. -/
def toBase36Digits (n : ℕ) : List Char :=
  if h : n = 0 then [] else
    have : n / 36 < n := Nat.div_lt_self (Nat.pos_of_ne_zero h) (by norm_num)
    digitChar36 (n % 36) :: toBase36Digits (n / 36)

/-- JavaScript `n.toString(36)` for a non-negative number. -/
def toBase36 (n : ℕ) : String :=
  if n = 0 then "0" else ⟨(toBase36Digits n).reverse⟩

/-- `hashString` (lines 249-260): the 32-bit rolling hash, printed in
base 36 and truncated to 8 characters. -/
def hashString (str : String) : String :=
  if str.data.isEmpty then "0"
  else
    let h := str.data.foldl (fun h c => hashStep h c.toNat) 0
    ⟨(toBase36 h.natAbs).data.take 8⟩

/-- A `<video>` element, with the attributes `generateSelector` and the
save/load path inspect (empty strings model absent/falsy attributes). -/
structure VideoElem where
  id : String
  sourceSrc : Option String
  src : String
  currentTime : JSNum
  duration : JSNum
  deriving DecidableEq, Repr

/-- `generateSelector` (lines 215-242). `domIndex` is the position of this
element in `document.querySelectorAll("video")` (`none` when the element is
not in the document), and `rnd` is the string `Math.random()`-derived
fallback would produce on this call. -/
def generateSelector (video : VideoElem) (domIndex : Option ℕ) (rnd : String) : String :=
  if video.id != "" then "#" ++ video.id
  else if (match video.sourceSrc with | some s => s != "" | none => false) then
    "video-src-" ++ hashString (video.sourceSrc.getD "")
  else if video.src != "" then
    "video-src-" ++ hashString video.src
  else
    match domIndex with
    | some i => "video-" ++ toString i
    | none => "video-" ++ rnd

/-- The object literal `dataToStore` built by `saveVideoPosition`
(lines 281-285): note the first field is named `timestamp` and holds the
video's `currentTime`. -/
def dataToStore (video : VideoElem) (now : String) : JSObj :=
  [("timestamp", .num video.currentTime),
   ("duration", .num video.duration),
   ("lastPlayed", .str now)]

/-- `saveVideoPosition` (lines 266-303), given the resolved parent URL, the
computed selector and the current ISO time string: writes the record unless
`currentTime` is not a positive number. -/
def saveVideoPosition (video : VideoElem) (parentUrl videoSelector now : String)
    (st : Storage) : Storage :=
  let videoKey := generateVideoKey parentUrl videoSelector
  if video.currentTime.gtb (.num 0) && !video.currentTime.isNaNb then
    storageSet st videoKey (dataToStore video now)
  else st

/-- The resume decision made by `loadVideoPosition` on a found record
(lines 327-351): `some t` means the code sets `video.currentTime = t`,
`none` means it leaves the video alone (invalid position, or position within
the trailing 10-second window of the duration). -/
def resumeDecision (data : JSObj) : Option ℚ :=
  let ts := data.getNum "timestamp"
  if ts.gtb (.num 0) && !ts.isNaNb then
    let resumeTime : ℚ := match ts with | .num q => max 0 (q - 2) | .nan => 0
    if (data.getNum "duration").truthy && ts.gtb ((data.getNum "duration").subn (.num 10)) then
      none
    else some resumeTime
  else none

/-- Result of `migrateOldPositions`: the storage afterwards, the boolean the
promise resolves with, and whether a `storage.remove` of the old key was
issued. -/
structure MigrateResult where
  st : Storage
  migrated : Bool
  removeIssued : Bool
  deriving DecidableEq, Repr

/-- `migrateOldPositions` (lines 592-651). The three booleans model
`chrome.runtime.lastError` being set in the `get`, `set` and `remove`
callbacks respectively; an errored `set`/`remove` leaves storage unchanged. -/
def migrateOldPositions (videoKey : String) (st : Storage)
    (getErr setErr removeErr : Bool) : MigrateResult :=
  let parts := splitList '#' videoKey.data
  let url : String := ⟨parts.headD []⟩
  let videoSelector : String := match parts.drop 1 with
    | [] => "undefined"
    | s :: _ => ⟨s⟩
  match parseUrl url with
  | none => ⟨st, false, false⟩
  | some parsedUrl =>
    let oldKey := parsedUrl.origin ++ "#" ++ videoSelector
    if oldKey == videoKey then ⟨st, false, false⟩
    else if getErr then ⟨st, false, false⟩
    else
      match storageGet st oldKey with
      | none => ⟨st, false, false⟩
      | some data =>
        if setErr then ⟨st, false, false⟩
        else
          let st1 := storageSet st videoKey data
          ⟨if removeErr then st1 else storageRemove st1 oldKey, true, true⟩

/-- Result of `loadVideoPosition`: storage afterwards, the resume decision
(`none` when the video is left untouched), and how many migrations were
performed along the way. -/
structure LoadResult where
  st : Storage
  resume : Option ℚ
  migrations : ℕ
  deriving DecidableEq, Repr

/-- `loadVideoPosition` (lines 309-369) with explicit recursion fuel for the
`migrate → reload` retry; migration storage errors are absent
(`false` flags), as in the claims under study. -/
def loadVideoPositionFuel : ℕ → String → Storage → LoadResult
  | 0, _, st => ⟨st, none, 0⟩
  | Nat.succ fuel, videoKey, st =>
    match storageGet st videoKey with
    | some data => ⟨st, resumeDecision data, 0⟩
    | none =>
      let m := migrateOldPositions videoKey st false false false
      if m.migrated then
        let r := loadVideoPositionFuel fuel videoKey m.st
        ⟨r.st, r.resume, r.migrations + 1⟩
      else ⟨m.st, none, 0⟩

/-- `loadVideoPosition` with enough fuel for the single retry the code can
perform (a successful migration always makes the retried lookup succeed). -/
def loadVideoPosition (videoKey : String) (st : Storage) : LoadResult :=
  loadVideoPositionFuel 2 videoKey st

/-- The environment `getParentPageUrl` reads: whether the frame is an
iframe, `document.referrer` (empty string when absent) and
`window.location.href`. -/
structure ResolverEnv where
  inIframe : Bool
  referrer : String
  locationHref : String
  deriving DecidableEq, Repr

/-- Data of an incoming `message` event as seen by the resolver's handler:
either a `parent-url-response` carrying a `url`, or anything else. -/
inductive MsgData where
  | response : String → MsgData
  | other : MsgData
  deriving DecidableEq, Repr

/-- An event processed while `getParentPageUrl` is waiting: an incoming
message, the 300ms retry timer, or the 1000ms timeout timer. -/
inductive REvent where
  | msg : MsgData → REvent
  | retryTimer : REvent
  | timeoutTimer : REvent
  deriving DecidableEq, Repr

/-- State of one `getParentPageUrl` run: the promise's resolved value
(single-assignment), whether the 1000ms timeout is still armed
(`clearTimeout` disarms it), the `receivedResponse` flag, whether the
message handler is still attached, how many `get-parent-url` requests were
posted, and how many responses the live handler has accepted. -/
structure RState where
  resolved : Option String
  timeoutActive : Bool
  receivedResponse : Bool
  listenerActive : Bool
  requestsSent : ℕ
  accepted : ℕ
  deriving DecidableEq, Repr

/-- Promise resolution: the first call wins, later calls are ignored. -/
def RState.resolve (s : RState) (u : String) : RState :=
  match s.resolved with
  | some _ => s
  | none => { s with resolved := some u }

/-- The fallback the code resolves with on timeout or on an invalid response
URL: the referrer when available, else the frame's own URL. -/
def fallbackUrl (env : ResolverEnv) : String :=
  if env.referrer != "" then env.referrer else env.locationHref

/-- One event step of the waiting resolver (lines 73-134): the retry timer
re-posts the request unless a response already arrived; the timeout resolves
the fallback if not cleared; a `parent-url-response` clears the timeout,
marks the response received, and resolves the validated URL (removing the
handler) or the fallback when validation throws. -/
def runStep (env : ResolverEnv) (s : RState) (e : REvent) : RState :=
  match e with
  | .retryTimer =>
    if s.receivedResponse then s else { s with requestsSent := s.requestsSent + 1 }
  | .timeoutTimer =>
    if s.timeoutActive then
      RState.resolve { s with timeoutActive := false } (fallbackUrl env)
    else s
  | .msg d =>
    if s.listenerActive then
      match d with
      | .response url =>
        let s1 := { s with timeoutActive := false, receivedResponse := true }
        match parseUrl url with
        | some parsed =>
          RState.resolve { s1 with listenerActive := false, accepted := s1.accepted + 1 }
            parsed.href
        | none => RState.resolve s1 (fallbackUrl env)
      | .other => s
    else s

/-- Outcome of the synchronous part of `getParentPageUrl` (lines 47-70,
135-145): either resolved immediately, or proceeding to messaging. -/
inductive Phase1Result where
  | done : String → Phase1Result
  | message : Phase1Result
  deriving DecidableEq, Repr

/-- The synchronous part of `getParentPageUrl`: not in an iframe resolves
the frame's own URL; a referrer whose path is non-trivial resolves the
referrer at once; otherwise messaging starts. An unparseable non-empty
referrer throws into the outer catch, which resolves the frame's own URL. -/
def phase1 (env : ResolverEnv) : Phase1Result :=
  if env.inIframe then
    if env.referrer != "" then
      match parseUrl env.referrer with
      | none => .done env.locationHref
      | some r =>
        if r.pathname != "" && r.pathname != "/" then .done env.referrer
        else .message
    else .message
  else .done env.locationHref

/-- Resolver state right after the first `get-parent-url` request is posted
and the handler and timers are installed. -/
def initMessaging : RState :=
  ⟨none, true, false, true, 1, 0⟩

/-- Fold the resolver over a list of events. -/
def stepEvents (env : ResolverEnv) (s : RState) (evs : List REvent) : RState :=
  evs.foldl (runStep env) s

/-- A full messaging-phase run over an event list. -/
def runMessaging (env : ResolverEnv) (evs : List REvent) : RState :=
  stepEvents env initMessaging evs

/-- A full `getParentPageUrl` run: the synchronous phase, then (only when it
did not already resolve) the messaging phase over the events `evs`. -/
def getParentPageUrl (env : ResolverEnv) (evs : List REvent) : RState :=
  match phase1 env with
  | .done u => ⟨some u, false, false, false, 0, 0⟩
  | .message => runMessaging env evs

/-- The video state the iframe control-message receiver manipulates. -/
structure CtrlVideo where
  currentTime : ℚ
  duration : ℚ
  paused : Bool
  playbackRate : ℚ
  deriving DecidableEq, Repr

/-- JavaScript `(x || d)` for an optional numeric message field
(`undefined`, `0` and `NaN` all fall back to the default). -/
def jsNumOr (v : Option JSNum) (d : ℚ) : ℚ :=
  match v with
  | some (.num q) => if q = 0 then d else q
  | _ => d

/-- A `video-control` message as read by the iframe receiver. -/
structure ControlMsg where
  action : String
  seconds : Option JSNum
  rate : Option JSNum
  deriving DecidableEq, Repr

/-- The `video-control` branch of `setupIframeMessageHandler`
(`src/unnamed/part_002` lines 299-333), applied to the active video: note
that neither `forward` nor `rewind` clamps the requested time. -/
def handleVideoControl (video : CtrlVideo) (m : ControlMsg) : CtrlVideo :=
  if m.action == "forward" then
    { video with currentTime := video.currentTime + jsNumOr m.seconds 30 }
  else if m.action == "rewind" then
    { video with currentTime := video.currentTime - jsNumOr m.seconds 30 }
  else if m.action == "togglePlayPause" then
    { video with paused := !video.paused }
  else if m.action == "skipAhead" then
    { video with currentTime := video.currentTime + jsNumOr m.seconds 30 }
  else if m.action == "setPlaybackRate" then
    { video with playbackRate := jsNumOr m.rate 1 }
  else video

/-- The sibling `ArrowLeft` rewind in the iframe keyboard handler
(`src/unnamed/part_002` lines 232-235), which does clamp at 0. -/
def keyboardRewind (video : CtrlVideo) : CtrlVideo :=
  { video with currentTime := max 0 (video.currentTime - 30) }

/-- Whether an event is an incoming `parent-url-response` message. -/
def isResponseEvent : REvent → Bool
  | .msg (.response _) => true
  | _ => false

theorem storageGet_set_self (st : Storage) (k : String) (v : JSObj) :
    storageGet (storageSet st k v) k = some v := by
  induction st with
  | nil => simp [storageGet, storageSet]
  | cons p rest ih =>
    obtain ⟨k', v'⟩ := p
    by_cases h : k' = k
    · simp [storageGet, storageSet, h]
    · simp [storageGet, storageSet, h, ih]

theorem storageGet_set_ne (st : Storage) (k k' : String) (v : JSObj) (h : k' ≠ k) :
    storageGet (storageSet st k v) k' = storageGet st k' := by
  induction st with
  | nil => simp [storageGet, storageSet, Ne.symm h]
  | cons p rest ih =>
    obtain ⟨k0, v0⟩ := p
    by_cases h0 : k0 = k
    · subst h0
      simp [storageGet, storageSet, Ne.symm h]
    · simp only [storageSet, beq_iff_eq, h0, if_false]
      by_cases h1 : k0 = k'
      · simp [storageGet, h1]
      · simp [storageGet, h1, ih]

theorem storageGet_remove_self (st : Storage) (k : String) :
    storageGet (storageRemove st k) k = none := by
  induction st with
  | nil => simp [storageGet, storageRemove]
  | cons p rest ih =>
    obtain ⟨k0, v0⟩ := p
    by_cases h0 : k0 = k
    · simp [storageRemove, h0, ih]
    · simp [storageRemove, storageGet, h0, ih]

theorem storageGet_remove_ne (st : Storage) (k k' : String) (h : k' ≠ k) :
    storageGet (storageRemove st k) k' = storageGet st k' := by
  induction st with
  | nil => simp [storageRemove]
  | cons p rest ih =>
    obtain ⟨k0, v0⟩ := p
    by_cases h0 : k0 = k
    · subst h0
      simp [storageRemove, storageGet, Ne.symm h, ih]
    · by_cases h1 : k0 = k'
      · simp [storageRemove, storageGet, h0, h1, h]
      · simp [storageRemove, storageGet, h0, h1, ih]

/-- C7: for every video whose `currentTime` is `0` or `NaN`,
`saveVideoPosition` leaves storage unchanged — no record is written. -/
theorem c7_save_zero_or_nan_is_noop (video : VideoElem)
    (parentUrl videoSelector now : String) (st : Storage)
    (h : video.currentTime = JSNum.num 0 ∨ video.currentTime = JSNum.nan) :
    saveVideoPosition video parentUrl videoSelector now st = st := by
  rcases h with h | h <;> simp [saveVideoPosition, h, JSNum.gtb, JSNum.isNaNb]

/-- Witness for C7: a concrete paused-at-zero video saved into empty storage
leaves it empty. -/
theorem c7_save_zero_or_nan_is_noop_witness :
    saveVideoPosition ⟨"", none, "", JSNum.num 0, JSNum.num 600⟩
      "https://example.com/watch" "video-0" "2024-05-01T10:00:00.000Z" [] = [] :=
  c7_save_zero_or_nan_is_noop _ _ _ _ _ (Or.inl rfl)

/-- C1 counterexample: a video at `currentTime = 595` of `duration = 600`
is inside the trailing 10-second window, yet `saveVideoPosition` does write
a record for it (the claim says the save must not write). -/
theorem c1_counterexample_trailing_window_written :
    storageGet
      (saveVideoPosition ⟨"", none, "", JSNum.num 595, JSNum.num 600⟩
        "https://example.com/watch" "video-0" "2024-05-01T10:00:00.000Z" [])
      (generateVideoKey "https://example.com/watch" "video-0")
    = some [("timestamp", JSValue.num (JSNum.num 595)),
            ("duration", JSValue.num (JSNum.num 600)),
            ("lastPlayed", JSValue.str "2024-05-01T10:00:00.000Z")] := by
  rfl

/-- C1 (amended): the trailing-window treatment happens at load time, not at
save time. `saveVideoPosition` writes the record whenever `currentTime` is a
positive number — also inside the trailing window — and for any stored
record whose `timestamp` lies within the trailing 10-second window of a
non-zero `duration`, the load path's resume decision is `none`: the video is
not resumed. -/
theorem c1_trailing_window_checked_at_load :
    (∀ (video : VideoElem) (parentUrl videoSelector now : String) (st : Storage),
      video.currentTime.gtb (JSNum.num 0) = true →
      storageGet (saveVideoPosition video parentUrl videoSelector now st)
        (generateVideoKey parentUrl videoSelector) = some (dataToStore video now)) ∧
    (∀ (data : JSObj) (t d : ℚ),
      data.getNum "timestamp" = JSNum.num t →
      data.getNum "duration" = JSNum.num d →
      0 < t → d ≠ 0 → d - 10 < t →
      resumeDecision data = none) := by
  constructor
  · intro video parentUrl videoSelector now st h
    cases hct : video.currentTime with
    | nan => rw [hct] at h; simp [JSNum.gtb] at h
    | num q =>
      rw [hct] at h
      simp [saveVideoPosition, hct, JSNum.isNaNb, h, storageGet_set_self]
  · intro data t d ht hd h0 hdz hwin
    simp [resumeDecision, ht, hd, JSNum.gtb, JSNum.isNaNb, JSNum.truthy, JSNum.subn,
      h0, hdz, hwin]

/-- Witness for the amended C1 at the spec's scenario numbers
(`currentTime = 595`, `duration = 600`): the save writes, the load does not
resume. -/
theorem c1_trailing_window_checked_at_load_witness :
    storageGet
      (saveVideoPosition ⟨"", none, "", JSNum.num 595, JSNum.num 600⟩
        "https://example.com/watch" "video-0" "2024-05-01T10:00:00.000Z" [])
      (generateVideoKey "https://example.com/watch" "video-0")
      = some (dataToStore ⟨"", none, "", JSNum.num 595, JSNum.num 600⟩
          "2024-05-01T10:00:00.000Z") ∧
    resumeDecision [("timestamp", JSValue.num (JSNum.num 595)),
      ("duration", JSValue.num (JSNum.num 600)),
      ("lastPlayed", JSValue.str "2024-05-01T10:00:00.000Z")] = none :=
  ⟨c1_trailing_window_checked_at_load.1 _ _ _ _ _ (by decide),
   c1_trailing_window_checked_at_load.2 _ 595 600 rfl rfl (by norm_num) (by norm_num)
     (by norm_num)⟩

/-- C2 counterexample: the persisted record has no `currentTime` field — the
position is stored under the field name `timestamp` — as shown on the very
record a concrete save writes. -/
theorem c2_counterexample_no_currentTime_field :
    JSObj.get (dataToStore ⟨"", none, "", JSNum.num 120, JSNum.num 600⟩
      "2024-05-01T10:00:00.000Z") "currentTime" = none ∧
    JSObj.get (dataToStore ⟨"", none, "", JSNum.num 120, JSNum.num 600⟩
      "2024-05-01T10:00:00.000Z") "timestamp" = some (JSValue.num (JSNum.num 120)) ∧
    storageGet
      (saveVideoPosition ⟨"", none, "", JSNum.num 120, JSNum.num 600⟩
        "https://example.com/watch?v=abc" "video-0" "2024-05-01T10:00:00.000Z" [])
      "https://example.com/watch?v=abc#video-0"
      = some (dataToStore ⟨"", none, "", JSNum.num 120, JSNum.num 600⟩
          "2024-05-01T10:00:00.000Z") := by
  exact ⟨rfl, rfl, rfl⟩

/-- C2 (amended): the storage key is the normalized owner URL — hash
fragment stripped, query reduced to the allow-list when the path is
non-trivial, bare origin otherwise — concatenated with `#` and the selector;
the persisted record's fields are `timestamp` (holding the current time),
`duration` and `lastPlayed`. -/
theorem c2_key_format_and_record_fields :
    (∀ (parentUrl videoSelector : String) (u : Url), parseUrl parentUrl = some u →
      generateVideoKey parentUrl videoSelector = stableUrlOf u ++ "#" ++ videoSelector) ∧
    (∀ (u : Url) (h : String), stableUrlOf { u with hash := h } = stableUrlOf u) ∧
    (∀ u : Url, u.pathname = "/" → stableUrlOf u = u.origin) ∧
    (∀ (video : VideoElem) (parentUrl videoSelector now : String) (st : Storage),
      video.currentTime.gtb (JSNum.num 0) = true →
      storageGet (saveVideoPosition video parentUrl videoSelector now st)
        (generateVideoKey parentUrl videoSelector)
      = some [("timestamp", JSValue.num video.currentTime),
              ("duration", JSValue.num video.duration),
              ("lastPlayed", JSValue.str now)]) := by
  refine ⟨?_, ?_, ?_, ?_⟩
  · intro parentUrl videoSelector u hp
    simp [generateVideoKey, hp]
  · intro u h
    simp [stableUrlOf, Url.origin]
  · intro u hp
    simp [stableUrlOf, hp]
  · intro video parentUrl videoSelector now st h
    cases hct : video.currentTime with
    | nan => rw [hct] at h; simp [JSNum.gtb] at h
    | num q =>
      rw [hct] at h
      simpa [saveVideoPosition, dataToStore, hct, JSNum.isNaNb, h]
        using storageGet_set_self st (generateVideoKey parentUrl videoSelector)
          (dataToStore video now)

/-- Witness for the amended C2 on a concrete URL with a hash fragment, an
allow-listed parameter `v` and a junk parameter `x`. -/
theorem c2_key_format_and_record_fields_witness :
    generateVideoKey "https://example.com/watch?v=abc&x=1#frag" "video-0"
      = stableUrlOf ⟨"https", "example.com", "/watch", "?v=abc&x=1", "#frag"⟩
        ++ "#" ++ "video-0" ∧
    stableUrlOf ⟨"https", "example.com", "/watch", "?v=abc&x=1", "#frag"⟩
      = stableUrlOf ⟨"https", "example.com", "/watch", "?v=abc&x=1", ""⟩ ∧
    stableUrlOf ⟨"https", "example.com", "/", "", "#frag"⟩
      = Url.origin ⟨"https", "example.com", "/", "", "#frag"⟩ ∧
    storageGet
      (saveVideoPosition ⟨"", none, "", JSNum.num 120, JSNum.num 600⟩
        "https://example.com" "video-0" "2024-05-01T10:00:00.000Z" [])
      (generateVideoKey "https://example.com" "video-0")
      = some [("timestamp", JSValue.num (JSNum.num 120)),
              ("duration", JSValue.num (JSNum.num 600)),
              ("lastPlayed", JSValue.str "2024-05-01T10:00:00.000Z")] :=
  ⟨c2_key_format_and_record_fields.1 _ _ _ rfl,
   c2_key_format_and_record_fields.2.1 ⟨"https", "example.com", "/watch", "?v=abc&x=1", ""⟩
     "#frag",
   c2_key_format_and_record_fields.2.2.1 _ rfl,
   c2_key_format_and_record_fields.2.2.2 _ _ _ _ _ (by decide)⟩

/-- C8: the iframe `video-control` receiver applies unclamped arithmetic: at
`currentTime = 10`, a `rewind` with `seconds = 30` sets `currentTime` to
`-20`, below 0 — while the sibling keyboard rewind clamps the same video at
0 — and a `forward` with `seconds = 30` adds exactly 30. -/
theorem c8_rewind_unclamped :
    (handleVideoControl ⟨10, 600, false, 1⟩
      ⟨"rewind", some (JSNum.num 30), none⟩).currentTime = -20 ∧
    (handleVideoControl ⟨10, 600, false, 1⟩
      ⟨"rewind", some (JSNum.num 30), none⟩).currentTime < 0 ∧
    (keyboardRewind ⟨10, 600, false, 1⟩).currentTime = 0 ∧
    (handleVideoControl ⟨100, 600, false, 1⟩
      ⟨"forward", some (JSNum.num 30), none⟩).currentTime = 100 + 30 := by
  refine ⟨?_, ?_, ?_, ?_⟩
  · simp [handleVideoControl, jsNumOr]; norm_num
  · simp [handleVideoControl, jsNumOr]; norm_num
  · norm_num [keyboardRewind]
  · simp [handleVideoControl, jsNumOr]

/-- C9: for a video that is present in the document
(`domIndex = some i`), the generated storage key does not depend on the
random fallback draw: two successive invocations of the key generation with
different randomness produce the identical key string. -/
theorem c9_key_generation_deterministic (video : VideoElem) (i : ℕ)
    (parentUrl rnd rnd2 : String) :
    generateVideoKey parentUrl (generateSelector video (some i) rnd)
      = generateVideoKey parentUrl (generateSelector video (some i) rnd2) := rfl

theorem resolve_accepted (s : RState) (u : String) :
    (s.resolve u).accepted = s.accepted := by
  unfold RState.resolve; cases s.resolved <;> rfl

theorem resolve_listenerActive (s : RState) (u : String) :
    (s.resolve u).listenerActive = s.listenerActive := by
  unfold RState.resolve; cases s.resolved <;> rfl

theorem resolve_resolved_of_some (s : RState) (u r : String) (h : s.resolved = some r) :
    (s.resolve u).resolved = some r := by
  unfold RState.resolve; rw [h]; exact h

theorem resolve_resolved_of_none (s : RState) (u : String) (h : s.resolved = none) :
    (s.resolve u).resolved = some u := by
  unfold RState.resolve; rw [h]

theorem stepEvents_nil (env : ResolverEnv) (s : RState) : stepEvents env s [] = s := rfl

theorem stepEvents_cons (env : ResolverEnv) (s : RState) (e : REvent) (rest : List REvent) :
    stepEvents env s (e :: rest) = stepEvents env (runStep env s e) rest := rfl

theorem runStep_resolved_some (env : ResolverEnv) (s : RState) (e : REvent) (r : String)
    (h : s.resolved = some r) : (runStep env s e).resolved = some r := by
  cases e with
  | retryTimer =>
    simp only [runStep]; split
    · exact h
    · exact h
  | timeoutTimer =>
    simp only [runStep]; split
    · apply resolve_resolved_of_some; exact h
    · exact h
  | msg d =>
    simp only [runStep]; split
    · split
      · split
        · apply resolve_resolved_of_some; exact h
        · apply resolve_resolved_of_some; exact h
      · exact h
    · exact h

theorem resolved_mono (env : ResolverEnv) (evs : List REvent) (s : RState) (r : String)
    (h : s.resolved = some r) : (stepEvents env s evs).resolved = some r := by
  induction evs generalizing s with
  | nil => simpa [stepEvents_nil] using h
  | cons e rest ih =>
    rw [stepEvents_cons]
    exact ih _ (runStep_resolved_some env s e r h)

theorem runStep_acceptInv (env : ResolverEnv) (s : RState) (e : REvent)
    (h1 : s.listenerActive = true → s.accepted = 0) (h2 : s.accepted ≤ 1) :
    ((runStep env s e).listenerActive = true → (runStep env s e).accepted = 0) ∧
      (runStep env s e).accepted ≤ 1 := by
  cases e with
  | retryTimer =>
    simp only [runStep]; split
    · exact ⟨h1, h2⟩
    · exact ⟨h1, h2⟩
  | timeoutTimer =>
    simp only [runStep]; split
    · refine ⟨?_, ?_⟩
      · intro hl
        rw [resolve_listenerActive] at hl
        rw [resolve_accepted]
        exact h1 hl
      · rw [resolve_accepted]; exact h2
    · exact ⟨h1, h2⟩
  | msg d =>
    simp only [runStep]; split
    · next hl =>
      split
      · split
        · refine ⟨?_, ?_⟩
          · intro hml
            rw [resolve_listenerActive] at hml
            simp at hml
          · rw [resolve_accepted]
            have h0 : s.accepted = 0 := h1 hl
            show s.accepted + 1 ≤ 1
            omega
        · refine ⟨?_, ?_⟩
          · intro hml
            rw [resolve_listenerActive] at hml
            rw [resolve_accepted]
            exact h1 hml
          · rw [resolve_accepted]; exact h2
      · exact ⟨h1, h2⟩
    · exact ⟨h1, h2⟩

theorem stepEvents_acceptInv (env : ResolverEnv) (evs : List REvent) (s : RState)
    (h1 : s.listenerActive = true → s.accepted = 0) (h2 : s.accepted ≤ 1) :
    (stepEvents env s evs).accepted ≤ 1 := by
  induction evs generalizing s with
  | nil => simpa [stepEvents_nil] using h2
  | cons e rest ih =>
    rw [stepEvents_cons]
    obtain ⟨g1, g2⟩ := runStep_acceptInv env s e h1 h2
    exact ih _ g1 g2

theorem stepEvents_no_response (env : ResolverEnv) (evs : List REvent) :
    ∀ s : RState, (∀ e ∈ evs, isResponseEvent e = false) →
    s.resolved = none → s.timeoutActive = true → REvent.timeoutTimer ∈ evs →
    (stepEvents env s evs).resolved = some (fallbackUrl env) := by
  induction evs with
  | nil => intro s _ _ _ hmem; cases hmem
  | cons e rest ih =>
    intro s hall hres hto hmem
    rw [stepEvents_cons]
    cases e with
    | timeoutTimer =>
      have hstep : (runStep env s REvent.timeoutTimer).resolved = some (fallbackUrl env) := by
        simpa [runStep, hto] using
          resolve_resolved_of_none { s with timeoutActive := false } (fallbackUrl env) hres
      exact resolved_mono env rest _ _ hstep
    | retryTimer =>
      have hmem' : REvent.timeoutTimer ∈ rest := by
        rcases List.mem_cons.mp hmem with h | h
        · cases h
        · exact h
      have hall' : ∀ e ∈ rest, isResponseEvent e = false :=
        fun e he => hall e (List.mem_cons_of_mem _ he)
      have hkeep : (runStep env s REvent.retryTimer).resolved = none ∧
          (runStep env s REvent.retryTimer).timeoutActive = true := by
        simp only [runStep]; split
        · exact ⟨hres, hto⟩
        · exact ⟨hres, hto⟩
      exact ih _ hall' hkeep.1 hkeep.2 hmem'
    | msg d =>
      have hmem' : REvent.timeoutTimer ∈ rest := by
        rcases List.mem_cons.mp hmem with h | h
        · cases h
        · exact h
      have hall' : ∀ e ∈ rest, isResponseEvent e = false :=
        fun e he => hall e (List.mem_cons_of_mem _ he)
      cases d with
      | response url =>
        have hfalse := hall (REvent.msg (MsgData.response url)) (List.mem_cons_self _ _)
        simp [isResponseEvent] at hfalse
      | other =>
        have hkeep : (runStep env s (REvent.msg MsgData.other)).resolved = none ∧
            (runStep env s (REvent.msg MsgData.other)).timeoutActive = true := by
          simp only [runStep]; split
          · exact ⟨hres, hto⟩
          · exact ⟨hres, hto⟩
        exact ih _ hall' hkeep.1 hkeep.2 hmem'

/-- C3 counterexample: with a referrer that carries a non-trivial path, the
resolver resolves that referrer at once as the final answer and posts no
`get-parent-url` request at all (`requestsSent = 0`) — it is not used merely
as a provisional answer. -/
theorem c3_counterexample_referrer_is_final_no_request :
    getParentPageUrl ⟨true, "https://example.com/watch", "https://cdn.example.com/embed"⟩
        [REvent.retryTimer, REvent.timeoutTimer]
      = ⟨some "https://example.com/watch", false, false, false, 0, 0⟩ := rfl

/-- C3 (amended): for a frame that is not top-level, a referrer containing a
non-trivial path is used as the final answer: the resolver resolves it
immediately and never broadcasts a ParentUrlRequest; messaging is reached
only when the referrer is absent or path-less. -/
theorem c3_referrer_with_path_final (env : ResolverEnv) (evs : List REvent) (r : Url)
    (hif : env.inIframe = true) (hr : env.referrer ≠ "")
    (hp : parseUrl env.referrer = some r)
    (h1 : r.pathname ≠ "") (h2 : r.pathname ≠ "/") :
    getParentPageUrl env evs = ⟨some env.referrer, false, false, false, 0, 0⟩ := by
  have hph : phase1 env = Phase1Result.done env.referrer := by
    simp [phase1, hif, hr, hp, h1, h2]
  unfold getParentPageUrl
  rw [hph]

/-- Witness for the amended C3 at a concrete iframe environment. -/
theorem c3_referrer_with_path_final_witness :
    getParentPageUrl ⟨true, "https://example.com/watch", "https://cdn.example.com/embed"⟩ []
      = ⟨some "https://example.com/watch", false, false, false, 0, 0⟩ :=
  c3_referrer_with_path_final _ [] ⟨"https", "example.com", "/watch", "", ""⟩ rfl
    (by decide) rfl (by decide) (by decide)

/-- C4: at most one response is ever accepted in a resolver run; once the
promise holds a value (accepted response or timeout) every later event —
in particular every later response — leaves it unchanged; and when both the
original request and the 300ms retry are answered, the first valid response
alone determines the result. -/
theorem c4_single_response_accepted :
    (∀ (env : ResolverEnv) (evs : List REvent), (runMessaging env evs).accepted ≤ 1) ∧
    (∀ (env : ResolverEnv) (s : RState) (evs : List REvent) (r : String),
      s.resolved = some r → (stepEvents env s evs).resolved = some r) ∧
    (∀ (env : ResolverEnv) (u1 u2 : String) (p : Url), parseUrl u1 = some p →
      (runMessaging env [REvent.retryTimer, REvent.msg (MsgData.response u1),
        REvent.msg (MsgData.response u2), REvent.timeoutTimer]).resolved
        = some p.href) := by
  refine ⟨?_, ?_, ?_⟩
  · intro env evs
    exact stepEvents_acceptInv env evs initMessaging (fun _ => rfl) (by decide)
  · intro env s evs r h
    exact resolved_mono env evs s r h
  · intro env u1 u2 p hp
    show (stepEvents env initMessaging _).resolved = some p.href
    rw [stepEvents_cons, stepEvents_cons]
    have h1 : runStep env initMessaging REvent.retryTimer
        = ⟨none, true, false, true, 2, 0⟩ := rfl
    rw [h1]
    have h2 : runStep env ⟨none, true, false, true, 2, 0⟩
        (REvent.msg (MsgData.response u1)) = ⟨some p.href, false, true, false, 2, 1⟩ := by
      simp [runStep, hp, RState.resolve]
    rw [h2]
    exact resolved_mono env _ _ _ rfl

/-- Witness for C4: a run where both the original and the retried request
are answered accepts at most one response, keeps an already-resolved value,
and resolves to the first valid response's URL. -/
theorem c4_single_response_accepted_witness :
    (runMessaging ⟨true, "", "https://frame.example/inner"⟩
      [REvent.retryTimer, REvent.msg (MsgData.response "https://parent.example/page"),
       REvent.msg (MsgData.response "https://other.example/q"),
       REvent.timeoutTimer]).accepted ≤ 1 ∧
    (stepEvents ⟨true, "", "https://frame.example/inner"⟩
      (⟨some "https://parent.example/page", false, true, false, 2, 1⟩ : RState)
      [REvent.msg (MsgData.response "https://other.example/q"),
       REvent.timeoutTimer]).resolved
      = some "https://parent.example/page" ∧
    (runMessaging ⟨true, "", "https://frame.example/inner"⟩
      [REvent.retryTimer, REvent.msg (MsgData.response "https://parent.example/page"),
       REvent.msg (MsgData.response "https://other.example/q"),
       REvent.timeoutTimer]).resolved
      = some (Url.href ⟨"https", "parent.example", "/page", "", ""⟩) :=
  ⟨c4_single_response_accepted.1 _ _,
   c4_single_response_accepted.2.1 _ _ _ _ rfl,
   c4_single_response_accepted.2.2 _ "https://parent.example/page"
     "https://other.example/q" ⟨"https", "parent.example", "/page", "", ""⟩ rfl⟩

/-- C5: in an iframe whose own URL is non-empty and whose referrer is either
absent or a well-formed URL, a run in which the responder never replies
still completes once the timeout event fires, resolving to the referrer if
available and to the frame's own URL otherwise — a non-empty string; the
promise always resolves and never rejects. -/
theorem c5_resolution_bounded_nonempty (env : ResolverEnv) (evs : List REvent)
    (hif : env.inIframe = true) (hloc : env.locationHref ≠ "")
    (hvalid : env.referrer = "" ∨ (parseUrl env.referrer).isSome = true)
    (hall : ∀ e ∈ evs, isResponseEvent e = false)
    (hto : REvent.timeoutTimer ∈ evs) :
    (getParentPageUrl env evs).resolved = some (fallbackUrl env) ∧
      fallbackUrl env ≠ "" := by
  have hfb : fallbackUrl env ≠ "" := by
    unfold fallbackUrl; split
    · next hcond => simpa using hcond
    · exact hloc
  refine ⟨?_, hfb⟩
  by_cases hr : env.referrer = ""
  · have hph : phase1 env = Phase1Result.message := by
      simp [phase1, hif, hr]
    have hgp : getParentPageUrl env evs = runMessaging env evs := by
      unfold getParentPageUrl; rw [hph]
    rw [hgp]
    exact stepEvents_no_response env evs initMessaging hall rfl rfl hto
  · rcases hvalid with h | hs
    · exact absurd h hr
    · obtain ⟨r, hpr⟩ := Option.isSome_iff_exists.mp hs
      have hfbr : fallbackUrl env = env.referrer := by simp [fallbackUrl, hr]
      by_cases hpath : (r.pathname != "" && r.pathname != "/") = true
      · have hph : phase1 env = Phase1Result.done env.referrer := by
          simp [phase1, hif, hr, hpr, hpath]
        have hgp : getParentPageUrl env evs
            = ⟨some env.referrer, false, false, false, 0, 0⟩ := by
          unfold getParentPageUrl; rw [hph]
        rw [hgp, hfbr]
      · have hph : phase1 env = Phase1Result.message := by
          simp [phase1, hif, hr, hpr, hpath]
        have hgp : getParentPageUrl env evs = runMessaging env evs := by
          unfold getParentPageUrl; rw [hph]
        rw [hgp]
        exact stepEvents_no_response env evs initMessaging hall rfl rfl hto

/-- Witness for C5: a concrete iframe with a path-less referrer and no
response events resolves to the referrer once the timeout fires. -/
theorem c5_resolution_bounded_nonempty_witness :
    (getParentPageUrl ⟨true, "https://example.com", "https://cdn.example.com/embed"⟩
      [REvent.retryTimer, REvent.timeoutTimer]).resolved
      = some (fallbackUrl ⟨true, "https://example.com", "https://cdn.example.com/embed"⟩) ∧
    fallbackUrl ⟨true, "https://example.com", "https://cdn.example.com/embed"⟩ ≠ "" :=
  c5_resolution_bounded_nonempty _ _ rfl (by decide) (Or.inr rfl) (by decide) (by decide)

theorem string_mk_data (s : String) : String.mk s.data = s := rfl

theorem splitList_ne_nil (c : Char) (l : List Char) : splitList c l ≠ [] := by
  cases l with
  | nil => simp [splitList]
  | cons x xs =>
    simp only [splitList]
    rcases hs : splitList c xs with _ | ⟨y, ys⟩
    · simp
    · by_cases hx : x = c <;> simp [hx]

theorem splitList_no_sep (c : Char) (l : List Char) (h : c ∉ l) : splitList c l = [l] := by
  induction l with
  | nil => rfl
  | cons x xs ih =>
    have hx : x ≠ c := fun he => h (he ▸ List.mem_cons_self x xs)
    have hxs : c ∉ xs := fun he => h (List.mem_cons_of_mem _ he)
    simp [splitList, ih hxs, hx]

theorem splitList_append (c : Char) (l1 l2 : List Char) (h : c ∉ l1) :
    splitList c (l1 ++ c :: l2) = l1 :: splitList c l2 := by
  induction l1 with
  | nil =>
    simp only [List.nil_append, splitList]
    rcases hs : splitList c l2 with _ | ⟨y, ys⟩
    · exact absurd hs (splitList_ne_nil c l2)
    · simp
  | cons x xs ih =>
    have hx : x ≠ c := fun he => h (he ▸ List.mem_cons_self x xs)
    have hxs : c ∉ xs := fun he => h (List.mem_cons_of_mem _ he)
    simp only [List.cons_append, splitList, List.append_eq]
    rw [ih hxs]
    simp [hx]

theorem splitList_key (url sel : String) (hu : ('#' : Char) ∉ url.data)
    (hs : ('#' : Char) ∉ sel.data) :
    splitList '#' (url ++ "#" ++ sel).data = [url.data, sel.data] := by
  have hd : (url ++ "#" ++ sel).data = url.data ++ '#' :: sel.data := by
    simp [String.data_append]
  rw [hd, splitList_append _ _ _ hu, splitList_no_sep _ _ hs]

theorem migrate_closed_form (url sel : String) (u : Url) (st : Storage) (rErr : Bool)
    (hu : ('#' : Char) ∉ url.data) (hs : ('#' : Char) ∉ sel.data)
    (hp : parseUrl url = some u) :
    migrateOldPositions (url ++ "#" ++ sel) st false false rErr
      = (if u.origin ++ "#" ++ sel == url ++ "#" ++ sel then ⟨st, false, false⟩
         else match storageGet st (u.origin ++ "#" ++ sel) with
           | none => ⟨st, false, false⟩
           | some data =>
             ⟨(if rErr then storageSet st (url ++ "#" ++ sel) data
               else storageRemove (storageSet st (url ++ "#" ++ sel) data)
                 (u.origin ++ "#" ++ sel)), true, true⟩) := by
  simp only [migrateOldPositions, splitList_key url sel hu hs, List.headD,
    List.drop_succ_cons, List.drop_zero, string_mk_data, hp]
  simp

/-- C10: for a well-formed new-format key, whenever the migration copy to
the new key succeeds (keys differ, the old-format key holds a record, no
`get`/`set` error), `migrateOldPositions` issues a removal of the single
derived old-format key and resolves `true` whether or not that removal
errors, and every storage key other than the old and the new key is left
unchanged; when the derived old key equals the new key it resolves `false`
with storage untouched and no removal issued. -/
theorem c10_migration_frame_effect (url sel : String) (u : Url) (st : Storage) (rErr : Bool)
    (hu : ('#' : Char) ∉ url.data) (hs : ('#' : Char) ∉ sel.data)
    (hp : parseUrl url = some u) :
    (∀ data : JSObj, u.origin ++ "#" ++ sel ≠ url ++ "#" ++ sel →
      storageGet st (u.origin ++ "#" ++ sel) = some data →
      (migrateOldPositions (url ++ "#" ++ sel) st false false rErr).migrated = true ∧
      (migrateOldPositions (url ++ "#" ++ sel) st false false rErr).removeIssued = true ∧
      (∀ k : String, k ≠ u.origin ++ "#" ++ sel → k ≠ url ++ "#" ++ sel →
        storageGet (migrateOldPositions (url ++ "#" ++ sel) st false false rErr).st k
          = storageGet st k)) ∧
    (u.origin ++ "#" ++ sel = url ++ "#" ++ sel →
      migrateOldPositions (url ++ "#" ++ sel) st false false rErr
        = ⟨st, false, false⟩) := by
  rw [migrate_closed_form url sel u st rErr hu hs hp]
  constructor
  · intro data hne hold
    simp only [beq_iff_eq, hne, if_false, hold]
    refine ⟨trivial, trivial, ?_⟩
    intro k hk1 hk2
    cases rErr with
    | true =>
      rw [if_pos rfl]
      exact storageGet_set_ne st _ k data hk2
    | false =>
      rw [if_neg (by simp)]
      rw [storageGet_remove_ne _ _ _ hk1]
      exact storageGet_set_ne st _ k data hk2
  · intro heq
    simp [heq]

/-- Witness for C10: a migration with an erroring removal still resolves
`true` with the removal issued and other keys untouched, and a domain-only
key (old key equal to the new key) resolves `false` without modifying
storage. -/
theorem c10_migration_frame_effect_witness :
    (migrateOldPositions ("https://example.com/watch" ++ "#" ++ "video-0")
      [("https://example.com#video-0", [("timestamp", JSValue.num (JSNum.num 120))]),
       ("https://other.example#video-9", [("timestamp", JSValue.num (JSNum.num 7))])]
      false false true).migrated = true ∧
    (migrateOldPositions ("https://example.com/watch" ++ "#" ++ "video-0")
      [("https://example.com#video-0", [("timestamp", JSValue.num (JSNum.num 120))]),
       ("https://other.example#video-9", [("timestamp", JSValue.num (JSNum.num 7))])]
      false false true).removeIssued = true ∧
    storageGet (migrateOldPositions ("https://example.com/watch" ++ "#" ++ "video-0")
      [("https://example.com#video-0", [("timestamp", JSValue.num (JSNum.num 120))]),
       ("https://other.example#video-9", [("timestamp", JSValue.num (JSNum.num 7))])]
      false false true).st "https://other.example#video-9"
      = storageGet
        [("https://example.com#video-0", [("timestamp", JSValue.num (JSNum.num 120))]),
         ("https://other.example#video-9", [("timestamp", JSValue.num (JSNum.num 7))])]
        "https://other.example#video-9" ∧
    migrateOldPositions ("https://example.com" ++ "#" ++ "video-0")
      [("https://example.com#video-0", [("timestamp", JSValue.num (JSNum.num 120))])]
      false false false
      = ⟨[("https://example.com#video-0", [("timestamp", JSValue.num (JSNum.num 120))])],
         false, false⟩ := by
  have h := (c10_migration_frame_effect "https://example.com/watch" "video-0"
    ⟨"https", "example.com", "/watch", "", ""⟩
    [("https://example.com#video-0", [("timestamp", JSValue.num (JSNum.num 120))]),
     ("https://other.example#video-9", [("timestamp", JSValue.num (JSNum.num 7))])]
    true (by decide) (by decide) rfl).1
    [("timestamp", JSValue.num (JSNum.num 120))] (by decide) (by decide)
  refine ⟨h.1, h.2.1, h.2.2 "https://other.example#video-9" (by decide) (by decide), ?_⟩
  exact (c10_migration_frame_effect "https://example.com" "video-0"
    ⟨"https", "example.com", "/", "", ""⟩
    [("https://example.com#video-0", [("timestamp", JSValue.num (JSNum.num 120))])]
    false (by decide) (by decide) rfl).2 (by decide)

/-- C6: for a record stored only under the old-format (domain-only) key, a
load of the new-format key performs exactly one migration, after which the
record sits under the new key; the load returns that the migration occurred,
and a repeated load finds the record directly, changes nothing and performs
no second migration. -/
theorem c6_migration_on_load (url sel : String) (u : Url) (data : JSObj) (st : Storage)
    (hu : ('#' : Char) ∉ url.data) (hs : ('#' : Char) ∉ sel.data)
    (hp : parseUrl url = some u)
    (hne : u.origin ++ "#" ++ sel ≠ url ++ "#" ++ sel)
    (hnew : storageGet st (url ++ "#" ++ sel) = none)
    (hold : storageGet st (u.origin ++ "#" ++ sel) = some data) :
    (loadVideoPosition (url ++ "#" ++ sel) st).migrations = 1 ∧
    storageGet (loadVideoPosition (url ++ "#" ++ sel) st).st (url ++ "#" ++ sel)
      = some data ∧
    loadVideoPosition (url ++ "#" ++ sel) (loadVideoPosition (url ++ "#" ++ sel) st).st
      = ⟨(loadVideoPosition (url ++ "#" ++ sel) st).st, resumeDecision data, 0⟩ := by
  have hm : migrateOldPositions (url ++ "#" ++ sel) st false false false
      = ⟨storageRemove (storageSet st (url ++ "#" ++ sel) data) (u.origin ++ "#" ++ sel),
         true, true⟩ := by
    rw [migrate_closed_form url sel u st false hu hs hp]
    simp [hne, hold]
  have hget2 : storageGet
      (storageRemove (storageSet st (url ++ "#" ++ sel) data) (u.origin ++ "#" ++ sel))
      (url ++ "#" ++ sel) = some data := by
    rw [storageGet_remove_ne _ _ _ (Ne.symm hne)]
    exact storageGet_set_self st _ data
  have hload1 : loadVideoPosition (url ++ "#" ++ sel) st
      = ⟨storageRemove (storageSet st (url ++ "#" ++ sel) data) (u.origin ++ "#" ++ sel),
         resumeDecision data, 1⟩ := by
    simp only [loadVideoPosition, loadVideoPositionFuel, hnew, hm, hget2]
    simp
  rw [hload1]
  refine ⟨rfl, hget2, ?_⟩
  simp only [loadVideoPosition, loadVideoPositionFuel, hget2]

/-- Witness for C6: a record stored only under
`https://example.com#video-0` is migrated by one load of
`https://example.com/watch#video-0` and found directly by the next. -/
theorem c6_migration_on_load_witness :
    (loadVideoPosition ("https://example.com/watch" ++ "#" ++ "video-0")
      [("https://example.com#video-0",
        [("timestamp", JSValue.num (JSNum.num 120)),
         ("duration", JSValue.num (JSNum.num 600)),
         ("lastPlayed", JSValue.str "2024-04-30T10:00:00.000Z")])]).migrations = 1 ∧
    storageGet (loadVideoPosition ("https://example.com/watch" ++ "#" ++ "video-0")
      [("https://example.com#video-0",
        [("timestamp", JSValue.num (JSNum.num 120)),
         ("duration", JSValue.num (JSNum.num 600)),
         ("lastPlayed", JSValue.str "2024-04-30T10:00:00.000Z")])]).st
      ("https://example.com/watch" ++ "#" ++ "video-0")
      = some [("timestamp", JSValue.num (JSNum.num 120)),
              ("duration", JSValue.num (JSNum.num 600)),
              ("lastPlayed", JSValue.str "2024-04-30T10:00:00.000Z")] ∧
    loadVideoPosition ("https://example.com/watch" ++ "#" ++ "video-0")
      (loadVideoPosition ("https://example.com/watch" ++ "#" ++ "video-0")
        [("https://example.com#video-0",
          [("timestamp", JSValue.num (JSNum.num 120)),
           ("duration", JSValue.num (JSNum.num 600)),
           ("lastPlayed", JSValue.str "2024-04-30T10:00:00.000Z")])]).st
      = ⟨(loadVideoPosition ("https://example.com/watch" ++ "#" ++ "video-0")
          [("https://example.com#video-0",
            [("timestamp", JSValue.num (JSNum.num 120)),
             ("duration", JSValue.num (JSNum.num 600)),
             ("lastPlayed", JSValue.str "2024-04-30T10:00:00.000Z")])]).st,
         resumeDecision
           [("timestamp", JSValue.num (JSNum.num 120)),
            ("duration", JSValue.num (JSNum.num 600)),
            ("lastPlayed", JSValue.str "2024-04-30T10:00:00.000Z")], 0⟩ :=
  c6_migration_on_load "https://example.com/watch" "video-0"
    ⟨"https", "example.com", "/watch", "", ""⟩
    [("timestamp", JSValue.num (JSNum.num 120)),
     ("duration", JSValue.num (JSNum.num 600)),
     ("lastPlayed", JSValue.str "2024-04-30T10:00:00.000Z")]
    [("https://example.com#video-0",
      [("timestamp", JSValue.num (JSNum.num 120)),
       ("duration", JSValue.num (JSNum.num 600)),
       ("lastPlayed", JSValue.str "2024-04-30T10:00:00.000Z")])]
    (by decide) (by decide) rfl (by decide) (by decide) (by decide)

end SmartVideo
